import Mathlib

/-!
Verification development for the `send_cmd` network-automation tool
(`src/main.py`).  The Python program is shallowly embedded: device
records become a Lean structure, each vendor subclass's `configure` /
`commit` override becomes a case of a dispatch on the vendor kind, the
external `netmiko` session is a record of per-call results, and the
per-device connect/retry loop of `connect_dev` becomes a structurally
recursive function over the list of per-attempt session behaviours.
Python exceptions are modelled by an explicit error class; an exception
raised inside an `except` handler (which escapes the worker) is the
`Outcome.escaped` constructor.
-/

/-- Vendor kind, mirroring the `os_type` string set by each subclass of
`NetworkDevice` (`cisco_ios`, `cisco_xr`, `cisco_xe`, `huawei`, `juniper`). -/
inductive OsType where
  | cisco_ios
  | cisco_xr
  | cisco_xe
  | huawei
  | juniper
deriving DecidableEq, Repr

/-- The mutable per-device record of `NetworkDevice.__init__`
(`src/main.py` lines 22-31).  `ssh_conn` is not a field here: the live
session handle is modelled separately as a `SessionBehavior`. -/
structure NetworkDevice where
  ip_address : String
  hostname : String
  os_type : OsType
  cmd_logs : List String
  conf_logs : List String
  connection_status : Bool
  connection_error_msg : String
deriving DecidableEq, Repr

/-- Construction: `NetworkDevice.__init__` plus the subclass override of
`os_type`.  Fresh devices have `connection_status = True` and an empty
`connection_error_msg`, and empty log lists. -/
def mkNetworkDevice (ip host : String) (os : OsType) : NetworkDevice :=
  { ip_address := ip
    hostname := host
    os_type := os
    cmd_logs := []
    conf_logs := []
    connection_status := true
    connection_error_msg := "" }

/-- `NetworkDeviceIOS.__init__`. -/
def NetworkDeviceIOS.new (ip host : String) : NetworkDevice :=
  mkNetworkDevice ip host OsType.cisco_ios

/-- `NetworkDeviceXR.__init__`. -/
def NetworkDeviceXR.new (ip host : String) : NetworkDevice :=
  mkNetworkDevice ip host OsType.cisco_xr

/-- `NetworkDeviceXE.__init__`. -/
def NetworkDeviceXE.new (ip host : String) : NetworkDevice :=
  mkNetworkDevice ip host OsType.cisco_xe

/-- `NetworkDeviceHuawei.__init__`. -/
def NetworkDeviceHuawei.new (ip host : String) : NetworkDevice :=
  mkNetworkDevice ip host OsType.huawei

/-- `NetworkDeviceMX.__init__`. -/
def NetworkDeviceMX.new (ip host : String) : NetworkDevice :=
  mkNetworkDevice ip host OsType.juniper

/-- `NetworkDevice.reset` (`src/main.py` lines 39-43). -/
def NetworkDevice.reset (d : NetworkDevice) : NetworkDevice :=
  { d with
    connection_status := true
    connection_error_msg := ""
    cmd_logs := []
    conf_logs := [] }

/-- Exception classes the `connect_dev` handlers distinguish:
`NetMikoTimeoutException`, `SSHException`, and every other `Exception`.
Each carries its `str()` text. -/
inductive PyExc where
  | timeout (msg : String)
  | ssh (msg : String)
  | other (msg : String)
deriving DecidableEq, Repr

/-- `str(err_msg)` on a caught exception. -/
def PyExc.str : PyExc → String
  | .timeout m => m
  | .ssh m => m
  | .other m => m

/-- One connection attempt's worth of external session behaviour: what
each call on `ConnectHandler` / `ssh_conn` returns or raises during that
attempt. -/
structure SessionBehavior where
  connect : Except PyExc Unit
  send_command : String → Except PyExc String
  send_config_set : List String → Except PyExc String
  save_config : Except PyExc String
  commit : Except PyExc String
  exit_config_mode : Except PyExc Unit
  disconnect : Except PyExc Unit

/-- Result of running a fragment of Python that mutates the device and
may raise: on an exception the partially mutated device is kept (Python
mutates in place). -/
abbrev Res := Except (PyExc × NetworkDevice) NetworkDevice

/-- `NetworkDevice.show_commands` (`src/main.py` lines 33-34): append the
raw command output to `cmd_logs`. -/
def NetworkDevice.show_commands (b : SessionBehavior) (d : NetworkDevice)
    (c : String) : Res :=
  match b.send_command c with
  | .ok out => .ok { d with cmd_logs := d.cmd_logs ++ [out] }
  | .error e => .error (e, d)

/-- `configure`, dispatched on the vendor kind: the base class appends
the `send_config_set` transcript to `conf_logs`; `NetworkDeviceXR`
discards it and appends a `show configuration` read; `NetworkDeviceMX`
discards it and appends a `show | compare` read. -/
def NetworkDevice.configure (b : SessionBehavior) (d : NetworkDevice)
    (lines : List String) : Res :=
  match d.os_type with
  | .cisco_xr =>
    match b.send_config_set lines with
    | .error e => .error (e, d)
    | .ok _ =>
      match b.send_command "show configuration" with
      | .error e => .error (e, d)
      | .ok out => .ok { d with conf_logs := d.conf_logs ++ [out] }
  | .juniper =>
    match b.send_config_set lines with
    | .error e => .error (e, d)
    | .ok _ =>
      match b.send_command "show | compare" with
      | .error e => .error (e, d)
      | .ok out => .ok { d with conf_logs := d.conf_logs ++ [out] }
  | _ =>
    match b.send_config_set lines with
    | .error e => .error (e, d)
    | .ok out => .ok { d with conf_logs := d.conf_logs ++ [out] }

/-- `commit`, dispatched on the vendor kind (`src/main.py` lines 51-56,
68-70, 78-79, 87-91, 103-105):
* IOS: `save_config`; on any exception append a
  `COMMIT is OK after msg:` diagnostic and send a bare newline (which may
  itself raise);
* XE: `save_config` with no try/except — an exception propagates;
* Huawei: `save_config`; on any exception append a `COMMIT error:`
  diagnostic;
* XR / MX: `ssh_conn.commit()` then `exit_config_mode()`, no
  try/except — an exception propagates. -/
def NetworkDevice.commit (b : SessionBehavior) (d : NetworkDevice) : Res :=
  match d.os_type with
  | .cisco_ios =>
    match b.save_config with
    | .ok out => .ok { d with conf_logs := d.conf_logs ++ [out] }
    | .error e =>
      let d1 := { d with
        conf_logs := d.conf_logs ++ ["COMMIT is OK after msg:" ++ e.str] }
      match b.send_command "\n" with
      | .ok out2 => .ok { d1 with conf_logs := d1.conf_logs ++ [out2] }
      | .error e2 => .error (e2, d1)
  | .cisco_xe =>
    match b.save_config with
    | .ok out => .ok { d with conf_logs := d.conf_logs ++ [out] }
    | .error e => .error (e, d)
  | .huawei =>
    match b.save_config with
    | .ok out => .ok { d with conf_logs := d.conf_logs ++ [out] }
    | .error e =>
      .ok { d with conf_logs := d.conf_logs ++ ["COMMIT error: " ++ e.str] }
  | _ =>
    match b.commit with
    | .error e => .error (e, d)
    | .ok out =>
      let d1 := { d with conf_logs := d.conf_logs ++ [out] }
      match b.exit_config_mode with
      | .ok _ => .ok d1
      | .error e => .error (e, d1)

/-- Run-settings dictionary built by `get_arguments`. -/
structure Settings where
  conf : Bool
  maxth : Nat
  os_type : String
deriving DecidableEq, Repr

/-- The query-mode loop of `cmd`: `for cmd in yaml_input:
device.show_commands(cmd)`. -/
def show_loop (b : SessionBehavior) : List String → NetworkDevice → Res
  | [], d => .ok d
  | c :: rest, d =>
    match NetworkDevice.show_commands b d c with
    | .error ed => .error ed
    | .ok d1 => show_loop b rest d1

/-- `cmd` (`src/main.py` lines 173-185): configure mode runs
`device.configure` then `device.commit`; query mode runs
`show_commands` once per supplied command.  The trailing `"%"` scan only
prints, so it has no modelled effect. -/
def cmd (settings : Settings) (conf_input cmd_input : List String)
    (b : SessionBehavior) (device : NetworkDevice) : Res :=
  if settings.conf then
    match NetworkDevice.configure b device conf_input with
    | .error ed => .error ed
    | .ok d1 => NetworkDevice.commit b d1
  else
    show_loop b cmd_input device

/-- The body of the `try:` block of one iteration of `connect_dev`'s
inner loop: `ConnectHandler(...)`, `cmd(device, settings)`,
`ssh_conn.disconnect()`. -/
def attemptOnce (settings : Settings) (conf_input cmd_input : List String)
    (b : SessionBehavior) (device : NetworkDevice) : Res :=
  match b.connect with
  | .error e => .error (e, device)
  | .ok _ =>
    match cmd settings conf_input cmd_input b device with
    | .error ed => .error ed
    | .ok d1 =>
      match b.disconnect with
      | .error e => .error (e, d1)
      | .ok _ => .ok d1

/-- How one device's lifecycle ends.  `done` is a normal exit from the
inner loop (every such path calls `dev_queue.task_done()`); `escaped`
means an exception was raised out of `connect_dev` itself — in the
source this happens in the `except SSHException` handler at `i == 2`,
where `str(err_msg)` raises `NameError` because `err_msg` is unbound in
that scope — so `task_done()` is never called and the worker thread
dies. -/
inductive Outcome where
  | done (d : NetworkDevice)
  | escaped (d : NetworkDevice)
deriving DecidableEq, Repr

/-- The device record as it stands when the lifecycle ends. -/
def Outcome.dev : Outcome → NetworkDevice
  | .done d => d
  | .escaped d => d

/-- Whether the lifecycle exit path called `dev_queue.task_done()`. -/
def Outcome.taskDone : Outcome → Bool
  | .done _ => true
  | .escaped _ => false

/-- The inner `while True:` of `connect_dev` (`src/main.py` lines
242-281), with the attempt counter `i` and a script of per-attempt
session behaviours.  Branches, in handler order:
* no exception: `task_done`, break (`done`);
* `NetMikoTimeoutException`: mark failed, record the message, `task_done`,
  break;
* `SSHException` at `i == 2`: mark failed, then `str(err_msg)` raises
  `NameError` (`err_msg` is unbound in this handler), which escapes —
  `connection_error_msg` is never assigned and `task_done` is never
  called;
* `SSHException` at `i < 2`: `i += 1`, `reset`, retry;
* any other `Exception` at `i == 2`: mark failed, record the message,
  `task_done`, break; at `i < 2`: `i += 1`, `reset`, retry.
The second component counts `ConnectHandler` invocations (loop
iterations).  The loop breaks or escapes by the third failure, so a
script of three behaviours covers every run; an exhausted script is
returned as `escaped` and is unreachable from `i = 0` with three
behaviours supplied. -/
def connect_dev_go (settings : Settings) (conf_input cmd_input : List String) :
    List SessionBehavior → Nat → NetworkDevice → Outcome × Nat
  | [], _, device => (Outcome.escaped device, 0)
  | b :: rest, i, device =>
    match attemptOnce settings conf_input cmd_input b device with
    | .ok d1 => (Outcome.done d1, 1)
    | .error (PyExc.timeout m, d1) =>
      (Outcome.done
        { d1 with connection_status := false, connection_error_msg := m }, 1)
    | .error (PyExc.ssh _, d1) =>
      if i == 2 then
        (Outcome.escaped { d1 with connection_status := false }, 1)
      else
        let r := connect_dev_go settings conf_input cmd_input rest (i + 1)
          d1.reset
        (r.1, r.2 + 1)
    | .error (PyExc.other m, d1) =>
      if i == 2 then
        (Outcome.done
          { d1 with connection_status := false, connection_error_msg := m }, 1)
      else
        let r := connect_dev_go settings conf_input cmd_input rest (i + 1)
          d1.reset
        (r.1, r.2 + 1)

/-- One device's full lifecycle, entered with `i = 0`. -/
def connect_dev (settings : Settings) (conf_input cmd_input : List String)
    (behs : List SessionBehavior) (device : NetworkDevice) : Outcome :=
  (connect_dev_go settings conf_input cmd_input behs 0 device).1

/-- Number of `ConnectHandler` invocations the lifecycle makes. -/
def connect_attempts (settings : Settings) (conf_input cmd_input : List String)
    (behs : List SessionBehavior) (device : NetworkDevice) : Nat :=
  (connect_dev_go settings conf_input cmd_input behs 0 device).2

/-- The outer `while True:` of `connect_dev`: a worker dequeues device
after device and runs each lifecycle.  If a lifecycle lets an exception
escape, the thread dies: later devices are never dequeued. -/
def connect_dev_worker (settings : Settings)
    (conf_input cmd_input : List String) :
    List (NetworkDevice × List SessionBehavior) → List Outcome
  | [] => []
  | (device, behs) :: rest =>
    match connect_dev settings conf_input cmd_input behs device with
    | Outcome.done d1 =>
      Outcome.done d1 :: connect_dev_worker settings conf_input cmd_input rest
    | Outcome.escaped d1 => [Outcome.escaped d1]

/-- ASCII digit test, matching the regex class `[0-9]`. -/
def isDigitChar (c : Char) : Bool := '0' ≤ c && c ≤ '9'

/-- Python's `"mt" in arg` substring test. -/
def containsMt : List Char → Bool
  | [] => false
  | c :: rest =>
    match c, rest with
    | 'm', 't' :: _ => true
    | _, _ => containsMt rest

/-- `re.search(r"mt([0-9]+)", arg)`: scan left to right for the first
position where `mt` is followed by at least one digit, and capture the
maximal digit run there. -/
def findMtMatch : List Char → Option (List Char)
  | [] => none
  | c :: rest =>
    match c, rest with
    | 'm', 't' :: rest2 =>
      let ds := rest2.takeWhile isDigitChar
      if ds = [] then findMtMatch rest else some ds
    | _, _ => findMtMatch rest

/-- `int(...)` on a captured `[0-9]+` group. -/
def digitsToNat (ds : List Char) : Nat :=
  ds.foldl (fun n c => 10 * n + (c.toNat - '0'.toNat)) 0

/-- One iteration of the `for arg in arguments:` loop of
`get_arguments` (`src/main.py` lines 117-125).  Note the `mt` branch
only checks `int(match.group(1)) <= 100`; there is no lower bound. -/
def get_arguments_step (s : Settings) (arg : String) : Settings :=
  if containsMt arg.toList then
    match findMtMatch arg.toList with
    | some ds =>
      if digitsToNat ds ≤ 100 then { s with maxth := digitsToNat ds } else s
    | none => s
  else if arg = "cfg" then { s with conf := true }
  else if arg = "xr" ∨ arg = "xe" ∨ arg = "hua" ∨ arg = "mx" then
    { s with os_type := arg }
  else s

/-- `get_arguments` (`src/main.py` lines 113-133): fold the argument
list over the defaults `{"conf": False, "maxth": 20, "os_type":
"cisco_ios"}`. -/
def get_arguments (arguments : List String) : Settings :=
  arguments.foldl get_arguments_step
    { conf := false, maxth := 20, os_type := "cisco_ios" }

/-- One hostname-tagged block written by `write_logs`: header and body. -/
structure HostBlock where
  hostname : String
  ip_address : String
  body : String
deriving DecidableEq, Repr

/-- The success-file block for one device: the joined transcript of the
active mode (`"".join(device.conf_logs)` or `"".join(device.cmd_logs)`). -/
def success_block (conf : Bool) (d : NetworkDevice) : HostBlock :=
  { hostname := d.hostname
    ip_address := d.ip_address
    body := String.join (if conf then d.conf_logs else d.cmd_logs) }

/-- The connection-error-file block for one device. -/
def failure_block (d : NetworkDevice) : HostBlock :=
  { hostname := d.hostname
    ip_address := d.ip_address
    body := d.connection_error_msg }

/-- The device loop of `write_logs`, in device order: each device with
`connection_status` goes to the success file, every other device bumps
`unavailable_devices_count` and goes to the connection-error file.  Both
modes write the same failure blocks; the mode only selects which
transcript the success block joins. -/
def write_logs_go (conf : Bool) :
    List NetworkDevice → Nat × List HostBlock × List HostBlock
  | [] => (0, [], [])
  | d :: rest =>
    let r := write_logs_go conf rest
    if d.connection_status then
      (r.1, success_block conf d :: r.2.1, r.2.2)
    else
      (r.1 + 1, r.2.1, failure_block d :: r.2.2)

/-- Result of `write_logs` (`src/main.py` lines 188-231): the failure
count it returns, the two bundles it writes, and the fate of the
connection-error file — always created (`open(..., "w")` at line 192),
and removed at the end iff every device still has
`connection_status is True` (lines 228-229). -/
structure WriteLogsResult where
  unavailable_devices_count : Nat
  success_bundle : List HostBlock
  failure_bundle : List HostBlock
  conn_error_file_created : Bool
  conn_error_file_removed : Bool
deriving DecidableEq, Repr

/-- `write_logs` over a finalized device list. -/
def write_logs (conf : Bool) (devices : List NetworkDevice) :
    WriteLogsResult :=
  let r := write_logs_go conf devices
  { unavailable_devices_count := r.1
    success_bundle := r.2.1
    failure_bundle := r.2.2
    conn_error_file_created := true
    conn_error_file_removed := devices.all fun d => d.connection_status }

/-- `total_devices = len(devices)` (`src/main.py` line 302). -/
def total_devices (devices : List NetworkDevice) : Nat := devices.length

/-- Settings for configure mode (as produced by a `cfg` argument). -/
def settingsConf : Settings :=
  { conf := true, maxth := 20, os_type := "cisco_ios" }

/-- Settings for query mode (the defaults). -/
def settingsQuery : Settings :=
  { conf := false, maxth := 20, os_type := "cisco_ios" }

/-- A fully healthy session: every call succeeds. -/
def behAllOk : SessionBehavior :=
  { connect := .ok ()
    send_command := fun _ => .ok "OUT"
    send_config_set := fun _ => .ok "CFGOUT"
    save_config := .ok "SAVED"
    commit := .ok "COMMITTED"
    exit_config_mode := .ok ()
    disconnect := .ok () }

/-- Healthy session except `save_config` raises. -/
def behSaveFails (e : String) : SessionBehavior :=
  { behAllOk with save_config := .error (PyExc.other e) }

/-- Healthy session except `ssh_conn.commit()` raises. -/
def behCommitFails (e : String) : SessionBehavior :=
  { behAllOk with commit := .error (PyExc.other e) }

/-- `ConnectHandler` raises `SSHException`. -/
def behConnectSsh (e : String) : SessionBehavior :=
  { behAllOk with connect := .error (PyExc.ssh e) }

/-- `ConnectHandler` raises `NetMikoTimeoutException`. -/
def behConnectTimeout (e : String) : SessionBehavior :=
  { behAllOk with connect := .error (PyExc.timeout e) }

/-- `ConnectHandler` raises a generic `Exception`. -/
def behConnectOther (e : String) : SessionBehavior :=
  { behAllOk with connect := .error (PyExc.other e) }

/-- An external call's error text is non-empty, when it errors at all. -/
def exceptMsgNe {α : Type} : Except PyExc α → Prop
  | .error e => PyExc.str e ≠ ""
  | .ok _ => True

/-- Every exception this session behaviour can raise carries non-empty
text. -/
def behErrorsNonempty (b : SessionBehavior) : Prop :=
  exceptMsgNe b.connect ∧ (∀ s, exceptMsgNe (b.send_command s)) ∧
  (∀ l, exceptMsgNe (b.send_config_set l)) ∧ exceptMsgNe b.save_config ∧
  exceptMsgNe b.commit ∧ exceptMsgNe b.exit_config_mode ∧
  exceptMsgNe b.disconnect

lemma show_loop_ok_frame (b : SessionBehavior) (cmds : List String) :
    ∀ d d' : NetworkDevice, show_loop b cmds d = .ok d' →
    d'.hostname = d.hostname ∧ d'.ip_address = d.ip_address ∧
    d'.os_type = d.os_type ∧
    d'.connection_status = d.connection_status ∧
    d'.connection_error_msg = d.connection_error_msg ∧
    d'.conf_logs = d.conf_logs ∧ ∃ t, d'.cmd_logs = d.cmd_logs ++ t := by
  induction cmds with
  | nil =>
    intro d d' h
    simp only [show_loop, Except.ok.injEq] at h
    subst h
    exact ⟨rfl, rfl, rfl, rfl, rfl, rfl, [], by simp⟩
  | cons c rest ih =>
    intro d d' h
    simp only [show_loop, NetworkDevice.show_commands] at h
    cases hc : b.send_command c with
    | error e => rw [hc] at h; simp at h
    | ok out =>
      rw [hc] at h
      obtain ⟨h1, h2, h3, h4, h5, h6, t, ht⟩ := ih _ _ h
      refine ⟨h1, h2, h3, h4, h5, h6, [out] ++ t, ?_⟩
      simpa using ht

lemma show_loop_err_frame (b : SessionBehavior) (cmds : List String) :
    ∀ (d d' : NetworkDevice) (e : PyExc),
    show_loop b cmds d = .error (e, d') →
    (∀ s, exceptMsgNe (b.send_command s)) →
    PyExc.str e ≠ "" ∧
    d'.connection_status = d.connection_status ∧
    d'.connection_error_msg = d.connection_error_msg := by
  induction cmds with
  | nil => intro d d' e h _; simp [show_loop] at h
  | cons c rest ih =>
    intro d d' e h hb
    simp only [show_loop, NetworkDevice.show_commands] at h
    cases hc : b.send_command c with
    | error e0 =>
      rw [hc] at h
      simp only [Except.error.injEq, Prod.mk.injEq] at h
      obtain ⟨he, hd⟩ := h
      subst he; subst hd
      have := hb c
      rw [hc] at this
      exact ⟨this, rfl, rfl⟩
    | ok out =>
      rw [hc] at h
      obtain ⟨h1, h2, h3⟩ := ih _ _ _ h hb
      exact ⟨h1, by simpa using h2, by simpa using h3⟩

lemma configure_ok_frame (b : SessionBehavior) (lines : List String)
    (d d' : NetworkDevice) (h : NetworkDevice.configure b d lines = .ok d') :
    d'.hostname = d.hostname ∧ d'.ip_address = d.ip_address ∧
    d'.os_type = d.os_type ∧
    d'.connection_status = d.connection_status ∧
    d'.connection_error_msg = d.connection_error_msg ∧
    d'.cmd_logs = d.cmd_logs ∧ ∃ t, d'.conf_logs = d.conf_logs ++ t := by
  cases hos : d.os_type with
  | cisco_xr =>
    simp only [NetworkDevice.configure, hos] at h
    cases hc : b.send_config_set lines with
    | error e => rw [hc] at h; simp at h
    | ok out0 =>
      rw [hc] at h
      cases hs : b.send_command "show configuration" with
      | error e => rw [hs] at h; simp at h
      | ok out =>
        rw [hs] at h
        simp only [Except.ok.injEq] at h
        subst h
        exact ⟨rfl, rfl, by simp [hos], rfl, rfl, rfl, [out], rfl⟩
  | juniper =>
    simp only [NetworkDevice.configure, hos] at h
    cases hc : b.send_config_set lines with
    | error e => rw [hc] at h; simp at h
    | ok out0 =>
      rw [hc] at h
      cases hs : b.send_command "show | compare" with
      | error e => rw [hs] at h; simp at h
      | ok out =>
        rw [hs] at h
        simp only [Except.ok.injEq] at h
        subst h
        exact ⟨rfl, rfl, by simp [hos], rfl, rfl, rfl, [out], rfl⟩
  | cisco_ios =>
    simp only [NetworkDevice.configure, hos] at h
    cases hc : b.send_config_set lines with
    | error e => rw [hc] at h; simp at h
    | ok out =>
      rw [hc] at h
      simp only [Except.ok.injEq] at h
      subst h
      exact ⟨rfl, rfl, by simp [hos], rfl, rfl, rfl, [out], rfl⟩
  | cisco_xe =>
    simp only [NetworkDevice.configure, hos] at h
    cases hc : b.send_config_set lines with
    | error e => rw [hc] at h; simp at h
    | ok out =>
      rw [hc] at h
      simp only [Except.ok.injEq] at h
      subst h
      exact ⟨rfl, rfl, by simp [hos], rfl, rfl, rfl, [out], rfl⟩
  | huawei =>
    simp only [NetworkDevice.configure, hos] at h
    cases hc : b.send_config_set lines with
    | error e => rw [hc] at h; simp at h
    | ok out =>
      rw [hc] at h
      simp only [Except.ok.injEq] at h
      subst h
      exact ⟨rfl, rfl, by simp [hos], rfl, rfl, rfl, [out], rfl⟩

lemma configure_err_frame (b : SessionBehavior) (lines : List String)
    (d d' : NetworkDevice) (e : PyExc)
    (h : NetworkDevice.configure b d lines = .error (e, d'))
    (hb : behErrorsNonempty b) :
    PyExc.str e ≠ "" ∧
    d'.connection_status = d.connection_status ∧
    d'.connection_error_msg = d.connection_error_msg := by
  obtain ⟨-, hcmd, hset, -, -, -, -⟩ := hb
  cases hos : d.os_type <;> simp only [NetworkDevice.configure, hos] at h <;>
    [skip; skip; skip; skip; skip] <;>
  · cases hc : b.send_config_set lines with
    | error e0 =>
      rw [hc] at h
      simp only [Except.error.injEq, Prod.mk.injEq] at h
      obtain ⟨he, hd⟩ := h
      subst he; subst hd
      have := hset lines
      rw [hc] at this
      exact ⟨this, rfl, rfl⟩
    | ok out0 =>
      rw [hc] at h
      first
      | (cases hs : b.send_command "show configuration" with
         | error e1 =>
           rw [hs] at h
           simp only [Except.error.injEq, Prod.mk.injEq] at h
           obtain ⟨he, hd⟩ := h
           subst he; subst hd
           have := hcmd "show configuration"
           rw [hs] at this
           exact ⟨this, rfl, rfl⟩
         | ok out => rw [hs] at h; simp at h)
      | (cases hs : b.send_command "show | compare" with
         | error e1 =>
           rw [hs] at h
           simp only [Except.error.injEq, Prod.mk.injEq] at h
           obtain ⟨he, hd⟩ := h
           subst he; subst hd
           have := hcmd "show | compare"
           rw [hs] at this
           exact ⟨this, rfl, rfl⟩
         | ok out => rw [hs] at h; simp at h)
      | simp at h

lemma commit_ok_frame (b : SessionBehavior) (d d' : NetworkDevice)
    (h : NetworkDevice.commit b d = .ok d') :
    d'.hostname = d.hostname ∧ d'.ip_address = d.ip_address ∧
    d'.os_type = d.os_type ∧
    d'.connection_status = d.connection_status ∧
    d'.connection_error_msg = d.connection_error_msg ∧
    d'.cmd_logs = d.cmd_logs ∧ ∃ t, d'.conf_logs = d.conf_logs ++ t := by
  cases hos : d.os_type <;> simp only [NetworkDevice.commit, hos] at h
  case cisco_ios =>
    cases hc : b.save_config with
    | ok out =>
      rw [hc] at h
      simp only [Except.ok.injEq] at h
      subst h
      exact ⟨rfl, rfl, by simp [hos], rfl, rfl, rfl, [out], rfl⟩
    | error e =>
      rw [hc] at h
      cases hs : b.send_command "\n" with
      | error e2 => rw [hs] at h; simp at h
      | ok out2 =>
        rw [hs] at h
        simp only [Except.ok.injEq] at h
        subst h
        refine ⟨rfl, rfl, by simp [hos], rfl, rfl, rfl,
          ["COMMIT is OK after msg:" ++ e.str, out2], ?_⟩
        simp
  case cisco_xe =>
    cases hc : b.save_config with
    | ok out =>
      rw [hc] at h
      simp only [Except.ok.injEq] at h
      subst h
      exact ⟨rfl, rfl, by simp [hos], rfl, rfl, rfl, [out], rfl⟩
    | error e => rw [hc] at h; simp at h
  case huawei =>
    cases hc : b.save_config with
    | ok out =>
      rw [hc] at h
      simp only [Except.ok.injEq] at h
      subst h
      exact ⟨rfl, rfl, by simp [hos], rfl, rfl, rfl, [out], rfl⟩
    | error e =>
      rw [hc] at h
      simp only [Except.ok.injEq] at h
      subst h
      exact ⟨rfl, rfl, by simp [hos], rfl, rfl, rfl,
        ["COMMIT error: " ++ e.str], rfl⟩
  case cisco_xr =>
    cases hc : b.commit with
    | error e => rw [hc] at h; simp at h
    | ok out =>
      rw [hc] at h
      cases he : b.exit_config_mode with
      | error e => rw [he] at h; simp at h
      | ok u =>
        rw [he] at h
        simp only [Except.ok.injEq] at h
        subst h
        exact ⟨rfl, rfl, by simp [hos], rfl, rfl, rfl, [out], rfl⟩
  case juniper =>
    cases hc : b.commit with
    | error e => rw [hc] at h; simp at h
    | ok out =>
      rw [hc] at h
      cases he : b.exit_config_mode with
      | error e => rw [he] at h; simp at h
      | ok u =>
        rw [he] at h
        simp only [Except.ok.injEq] at h
        subst h
        exact ⟨rfl, rfl, by simp [hos], rfl, rfl, rfl, [out], rfl⟩

lemma commit_err_frame (b : SessionBehavior) (d d' : NetworkDevice)
    (e : PyExc) (h : NetworkDevice.commit b d = .error (e, d'))
    (hb : behErrorsNonempty b) :
    PyExc.str e ≠ "" ∧
    d'.connection_status = d.connection_status ∧
    d'.connection_error_msg = d.connection_error_msg := by
  obtain ⟨-, hcmd, -, hsave, hcom, hexit, -⟩ := hb
  cases hos : d.os_type <;> simp only [NetworkDevice.commit, hos] at h
  case cisco_ios =>
    cases hc : b.save_config with
    | ok out => rw [hc] at h; simp at h
    | error e0 =>
      rw [hc] at h
      cases hs : b.send_command "\n" with
      | ok out2 => rw [hs] at h; simp at h
      | error e2 =>
        rw [hs] at h
        simp only [Except.error.injEq, Prod.mk.injEq] at h
        obtain ⟨he, hd⟩ := h
        subst he; subst hd
        have := hcmd "\n"
        rw [hs] at this
        exact ⟨this, rfl, rfl⟩
  case cisco_xe =>
    cases hc : b.save_config with
    | ok out => rw [hc] at h; simp at h
    | error e0 =>
      rw [hc] at h
      simp only [Except.error.injEq, Prod.mk.injEq] at h
      obtain ⟨he, hd⟩ := h
      subst he; subst hd
      rw [hc] at hsave
      exact ⟨hsave, rfl, rfl⟩
  case huawei =>
    cases hc : b.save_config with
    | ok out => rw [hc] at h; simp at h
    | error e0 => rw [hc] at h; simp at h
  case cisco_xr =>
    cases hc : b.commit with
    | error e0 =>
      rw [hc] at h
      simp only [Except.error.injEq, Prod.mk.injEq] at h
      obtain ⟨he, hd⟩ := h
      subst he; subst hd
      rw [hc] at hcom
      exact ⟨hcom, rfl, rfl⟩
    | ok out =>
      rw [hc] at h
      cases he2 : b.exit_config_mode with
      | ok u => rw [he2] at h; simp at h
      | error e1 =>
        rw [he2] at h
        simp only [Except.error.injEq, Prod.mk.injEq] at h
        obtain ⟨he, hd⟩ := h
        subst he; subst hd
        rw [he2] at hexit
        exact ⟨hexit, rfl, rfl⟩
  case juniper =>
    cases hc : b.commit with
    | error e0 =>
      rw [hc] at h
      simp only [Except.error.injEq, Prod.mk.injEq] at h
      obtain ⟨he, hd⟩ := h
      subst he; subst hd
      rw [hc] at hcom
      exact ⟨hcom, rfl, rfl⟩
    | ok out =>
      rw [hc] at h
      cases he2 : b.exit_config_mode with
      | ok u => rw [he2] at h; simp at h
      | error e1 =>
        rw [he2] at h
        simp only [Except.error.injEq, Prod.mk.injEq] at h
        obtain ⟨he, hd⟩ := h
        subst he; subst hd
        rw [he2] at hexit
        exact ⟨hexit, rfl, rfl⟩

lemma cmd_ok_frame (S : Settings) (ci qi : List String) (b : SessionBehavior)
    (d d' : NetworkDevice) (h : cmd S ci qi b d = .ok d') :
    d'.hostname = d.hostname ∧ d'.ip_address = d.ip_address ∧
    d'.os_type = d.os_type ∧
    d'.connection_status = d.connection_status ∧
    d'.connection_error_msg = d.connection_error_msg ∧
    (S.conf = true → d'.cmd_logs = d.cmd_logs ∧
      ∃ t, d'.conf_logs = d.conf_logs ++ t) ∧
    (S.conf = false → d'.conf_logs = d.conf_logs ∧
      ∃ t, d'.cmd_logs = d.cmd_logs ++ t) := by
  cases hconf : S.conf with
  | true =>
    simp only [cmd, hconf, if_true] at h
    cases hcfg : NetworkDevice.configure b d ci with
    | error ed => rw [hcfg] at h; simp at h
    | ok d1 =>
      rw [hcfg] at h
      obtain ⟨c1, c2, c3, c4, c5, c6, t1, ht1⟩ := configure_ok_frame b ci d d1 hcfg
      obtain ⟨k1, k2, k3, k4, k5, k6, t2, ht2⟩ := commit_ok_frame b d1 d' h
      refine ⟨k1.trans c1, k2.trans c2, k3.trans c3, k4.trans c4, k5.trans c5,
        fun _ => ⟨k6.trans c6, t1 ++ t2, ?_⟩, fun hf => absurd hf (by decide)⟩
      rw [ht2, ht1, List.append_assoc]
  | false =>
    simp only [cmd, hconf, if_false, Bool.false_eq_true] at h
    obtain ⟨c1, c2, c3, c4, c5, c6, t, ht⟩ := show_loop_ok_frame b qi d d' h
    exact ⟨c1, c2, c3, c4, c5, fun hf => absurd hf (by decide),
      fun _ => ⟨c6, t, ht⟩⟩

lemma cmd_err_frame (S : Settings) (ci qi : List String) (b : SessionBehavior)
    (d d' : NetworkDevice) (e : PyExc)
    (h : cmd S ci qi b d = .error (e, d')) (hb : behErrorsNonempty b) :
    PyExc.str e ≠ "" ∧
    d'.connection_status = d.connection_status ∧
    d'.connection_error_msg = d.connection_error_msg := by
  cases hconf : S.conf with
  | true =>
    simp only [cmd, hconf, if_true] at h
    cases hcfg : NetworkDevice.configure b d ci with
    | error ed =>
      rw [hcfg] at h
      simp only [Except.error.injEq] at h
      obtain ⟨he, hd⟩ : ed.1 = e ∧ ed.2 = d' := by
        constructor
        · exact congrArg Prod.fst h
        · exact congrArg Prod.snd h
      subst he; subst hd
      exact configure_err_frame b ci d ed.2 ed.1 (by rw [hcfg]) hb
    | ok d1 =>
      rw [hcfg] at h
      obtain ⟨-, -, -, c4, c5, -, -⟩ := configure_ok_frame b ci d d1 hcfg
      obtain ⟨k1, k4, k5⟩ := commit_err_frame b d1 d' e h hb
      exact ⟨k1, k4.trans c4, k5.trans c5⟩
  | false =>
    simp only [cmd, hconf, if_false, Bool.false_eq_true] at h
    exact show_loop_err_frame b qi d d' e h hb.2.1

lemma attemptOnce_ok_frame (S : Settings) (ci qi : List String)
    (b : SessionBehavior) (d d' : NetworkDevice)
    (h : attemptOnce S ci qi b d = .ok d') :
    d'.connection_status = d.connection_status ∧
    d'.connection_error_msg = d.connection_error_msg := by
  simp only [attemptOnce] at h
  cases hc : b.connect with
  | error e => rw [hc] at h; simp at h
  | ok u =>
    rw [hc] at h
    cases hcmd : cmd S ci qi b d with
    | error ed => rw [hcmd] at h; simp at h
    | ok d1 =>
      rw [hcmd] at h
      cases hd : b.disconnect with
      | error e => rw [hd] at h; simp at h
      | ok u2 =>
        rw [hd] at h
        simp only [Except.ok.injEq] at h
        subst h
        obtain ⟨-, -, -, c4, c5, -, -⟩ := cmd_ok_frame S ci qi b d d1 hcmd
        exact ⟨c4, c5⟩

lemma attemptOnce_err_frame (S : Settings) (ci qi : List String)
    (b : SessionBehavior) (d d' : NetworkDevice) (e : PyExc)
    (h : attemptOnce S ci qi b d = .error (e, d')) (hb : behErrorsNonempty b) :
    PyExc.str e ≠ "" ∧
    d'.connection_status = d.connection_status ∧
    d'.connection_error_msg = d.connection_error_msg := by
  simp only [attemptOnce] at h
  cases hc : b.connect with
  | error e0 =>
    rw [hc] at h
    simp only [Except.error.injEq, Prod.mk.injEq] at h
    obtain ⟨he, hd⟩ := h
    subst he; subst hd
    have := hb.1
    rw [hc] at this
    exact ⟨this, rfl, rfl⟩
  | ok u =>
    rw [hc] at h
    cases hcmd : cmd S ci qi b d with
    | error ed =>
      rw [hcmd] at h
      simp only [Except.error.injEq] at h
      obtain ⟨he, hd⟩ : ed.1 = e ∧ ed.2 = d' := by
        constructor
        · exact congrArg Prod.fst h
        · exact congrArg Prod.snd h
      subst he; subst hd
      exact cmd_err_frame S ci qi b d ed.2 ed.1 (by rw [hcmd]) hb
    | ok d1 =>
      rw [hcmd] at h
      obtain ⟨-, -, -, c4, c5, -, -⟩ := cmd_ok_frame S ci qi b d d1 hcmd
      cases hd : b.disconnect with
      | ok u2 => rw [hd] at h; simp at h
      | error e1 =>
        rw [hd] at h
        simp only [Except.error.injEq, Prod.mk.injEq] at h
        obtain ⟨he, hdd⟩ := h
        subst he; subst hdd
        have := hb.2.2.2.2.2.2
        rw [hd] at this
        exact ⟨this, c4, c5⟩

lemma connect_dev_go_done_inv (S : Settings) (ci qi : List String) :
    ∀ (behs : List SessionBehavior) (i : Nat) (d d' : NetworkDevice),
    (∀ b ∈ behs, behErrorsNonempty b) →
    d.connection_status = true → d.connection_error_msg = "" →
    (connect_dev_go S ci qi behs i d).1 = Outcome.done d' →
    (d'.connection_error_msg ≠ "" ↔ d'.connection_status = false) := by
  intro behs
  induction behs with
  | nil => intro i d d' _ _ _ h; simp [connect_dev_go] at h
  | cons b rest ih =>
    intro i d d' hb hst hmsg h
    have hbb : behErrorsNonempty b := hb b (by simp)
    have hbr : ∀ x ∈ rest, behErrorsNonempty x := fun x hx => hb x (by simp [hx])
    simp only [connect_dev_go] at h
    cases ha : attemptOnce S ci qi b d with
    | ok d1 =>
      rw [ha] at h
      simp only [Outcome.done.injEq] at h
      subst h
      obtain ⟨p4, p5⟩ := attemptOnce_ok_frame S ci qi b d d1 ha
      constructor
      · intro hne; exact absurd (p5.trans hmsg) hne
      · intro hfalse; rw [p4, hst] at hfalse; cases hfalse
    | error ed =>
      obtain ⟨e, d1⟩ := ed
      rw [ha] at h
      obtain ⟨hne, q4, q5⟩ := attemptOnce_err_frame S ci qi b d d1 e ha hbb
      cases e with
      | timeout m =>
        simp only [Outcome.done.injEq] at h
        subst h
        simp only [PyExc.str] at hne
        simpa using hne
      | ssh m =>
        by_cases hi : i = 2
        · simp [hi] at h
        · simp only [beq_iff_eq] at h
          rw [if_neg hi] at h
          exact ih (i + 1) d1.reset d' hbr (by simp [NetworkDevice.reset])
            (by simp [NetworkDevice.reset]) h
      | other m =>
        by_cases hi : i = 2
        · simp only [beq_iff_eq] at h
          rw [if_pos hi] at h
          simp only [Outcome.done.injEq] at h
          subst h
          simp only [PyExc.str] at hne
          simpa using hne
        · simp only [beq_iff_eq] at h
          rw [if_neg hi] at h
          exact ih (i + 1) d1.reset d' hbr (by simp [NetworkDevice.reset])
            (by simp [NetworkDevice.reset]) h

/-- A fixed IOS device used in concrete scenarios. -/
def devA : NetworkDevice := NetworkDeviceIOS.new "192.0.2.10" "rtrA"

/-- A second fixed IOS device used in concrete scenarios. -/
def devB : NetworkDevice := NetworkDeviceIOS.new "192.0.2.11" "rtrB"

/-- Three attempts, each raising `SSHException` from `ConnectHandler`. -/
def sshAlwaysScript : List SessionBehavior :=
  [behConnectSsh "Error reading SSH protocol banner 1",
   behConnectSsh "Error reading SSH protocol banner 2",
   behConnectSsh "Error reading SSH protocol banner 3"]

/-- Three attempts, each raising a generic `Exception` from
`ConnectHandler`. -/
def otherAlwaysScript : List SessionBehavior :=
  [behConnectOther "connection refused 1",
   behConnectOther "connection refused 2",
   behConnectOther "connection refused 3"]

/-- Claim C1, counterexample: an XE device is a save-config vendor kind,
yet a `save_config` failure during its `commit()` is NOT caught inside
`commit()` — `NetworkDeviceXE.commit` has no try/except, so the error
propagates, and a device whose `save_config` keeps failing ends
`DONE_FAILURE` with `connectionOK = false`, not the claimed success
state. -/
theorem xe_commit_error_not_caught :
    NetworkDevice.commit (behSaveFails "write memory failed")
        (NetworkDeviceXE.new "192.0.2.2" "sw1")
      = Except.error (PyExc.other "write memory failed",
          NetworkDeviceXE.new "192.0.2.2" "sw1") ∧
    connect_dev settingsConf ["interface Lo0"] []
        [behSaveFails "write memory failed", behSaveFails "write memory failed",
         behSaveFails "write memory failed"]
        (NetworkDeviceXE.new "192.0.2.2" "sw1")
      = Outcome.done { NetworkDeviceXE.new "192.0.2.2" "sw1" with
          conf_logs := ["CFGOUT"], connection_status := false,
          connection_error_msg := "write memory failed" } :=
  ⟨rfl, rfl⟩

/-- Claim C1, amended: for IOS and Huawei devices (but not XE), a
`commit()` error on an otherwise healthy session is caught inside
`commit()`, converted to diagnostic text appended to `conf_logs`, and the
device still ends `DONE_SUCCESS` with `connection_status = true`. -/
theorem ios_huawei_commit_error_caught (e ip host : String)
    (prior : List String) :
    NetworkDevice.commit (behSaveFails e)
        { NetworkDeviceIOS.new ip host with conf_logs := prior }
      = .ok { NetworkDeviceIOS.new ip host with
          conf_logs := prior ++ ["COMMIT is OK after msg:" ++ e] ++ ["OUT"] } ∧
    NetworkDevice.commit (behSaveFails e)
        { NetworkDeviceHuawei.new ip host with conf_logs := prior }
      = .ok { NetworkDeviceHuawei.new ip host with
          conf_logs := prior ++ ["COMMIT error: " ++ e] } ∧
    connect_dev settingsConf ["interface Lo0"] [] [behSaveFails e]
        (NetworkDeviceIOS.new ip host)
      = Outcome.done { NetworkDeviceIOS.new ip host with
          conf_logs := ["CFGOUT", "COMMIT is OK after msg:" ++ e, "OUT"] } ∧
    connect_dev settingsConf ["interface Lo0"] [] [behSaveFails e]
        (NetworkDeviceHuawei.new ip host)
      = Outcome.done { NetworkDeviceHuawei.new ip host with
          conf_logs := ["CFGOUT", "COMMIT error: " ++ e] } :=
  ⟨rfl, rfl, rfl, rfl⟩

/-- Claim C2: on the path where all 3 connection attempts raise
`SSHException`, the exhausted-retry handler marks the device failed but
then evaluates `str(err_msg)` with `err_msg` unbound, so a `NameError`
escapes `connect_dev`: the device ends with `connection_status = false`
but `connection_error_msg` still `""` — NOT the text of the last
observed error — and the lifecycle never reaches a normal terminal
exit. -/
theorem ssh_retry_exhaustion_drops_error_text :
    connect_dev settingsQuery [] ["show version"]
        [behConnectSsh "kex exchange failed 1",
         behConnectSsh "kex exchange failed 2",
         behConnectSsh "kex exchange failed 3"] devA
      = Outcome.escaped { devA with connection_status := false } ∧
    (connect_dev settingsQuery [] ["show version"]
        [behConnectSsh "kex exchange failed 1",
         behConnectSsh "kex exchange failed 2",
         behConnectSsh "kex exchange failed 3"] devA).dev.connection_error_msg
      = "" ∧
    "" ≠ "kex exchange failed 3" :=
  ⟨rfl, rfl, by decide⟩

/-- Claim C3: a device whose 3 attempts all raise `SSHException` makes
the worker raise `NameError` out of `connect_dev`: the error is NOT
absorbed, the queue slot is never marked done, and the worker never
returns to dequeue its next device (the healthy second device is never
processed).  A generic connection error, in contrast, is absorbed and the
slot is marked done. -/
theorem ssh_exhaustion_escapes_worker :
    (connect_dev settingsQuery [] [] sshAlwaysScript devA).taskDone = false ∧
    connect_dev_worker settingsQuery [] []
        [(devA, sshAlwaysScript), (devB, [behAllOk])]
      = [Outcome.escaped { devA with connection_status := false }] ∧
    (connect_dev_worker settingsQuery [] []
        [(devA, sshAlwaysScript), (devB, [behAllOk])]).length = 1 ∧
    (connect_dev settingsQuery [] [] otherAlwaysScript devB).taskDone = true :=
  ⟨rfl, rfl, rfl, rfl⟩

/-- Claim C4: an always-`SSHException` device is connected-to exactly 3
times (capped at `i == 2`), but the run then crashes with `NameError`
instead of reaching the failure terminal state; a first-attempt-timeout
device is connected-to exactly once and immediately reaches the failure
terminal state; an always-generic-error device shows the intended 3
attempts followed by a clean `DONE_FAILURE`. -/
theorem attempt_count_three_ssh_one_timeout :
    connect_attempts settingsQuery [] [] sshAlwaysScript devA = 3 ∧
    (connect_dev settingsQuery [] [] sshAlwaysScript devA).taskDone = false ∧
    connect_attempts settingsQuery [] []
        [behConnectTimeout "timed-out connecting to 192.0.2.10",
         behAllOk, behAllOk] devA = 1 ∧
    connect_dev settingsQuery [] []
        [behConnectTimeout "timed-out connecting to 192.0.2.10",
         behAllOk, behAllOk] devA
      = Outcome.done { devA with
          connection_status := false,
          connection_error_msg := "timed-out connecting to 192.0.2.10" } ∧
    connect_attempts settingsQuery [] [] otherAlwaysScript devA = 3 ∧
    connect_dev settingsQuery [] [] otherAlwaysScript devA
      = Outcome.done { devA with
          connection_status := false,
          connection_error_msg := "connection refused 3" } :=
  ⟨rfl, rfl, rfl, rfl, rfl, rfl⟩

/-- Claim C5: a `commit()` error on an XR or MX device is not caught
inside `commit()` — it propagates out of the commit step — and a device
whose commit raises a (generic-class) error on every attempt ends
`DONE_FAILURE` with `connection_status = false` and the error text
recorded. -/
theorem xr_mx_commit_error_propagates (m ip host : String)
    (prior : List String) :
    NetworkDevice.commit (behCommitFails m)
        { NetworkDeviceXR.new ip host with conf_logs := prior }
      = .error (PyExc.other m,
          { NetworkDeviceXR.new ip host with conf_logs := prior }) ∧
    NetworkDevice.commit (behCommitFails m)
        { NetworkDeviceMX.new ip host with conf_logs := prior }
      = .error (PyExc.other m,
          { NetworkDeviceMX.new ip host with conf_logs := prior }) ∧
    connect_dev settingsConf ["set interface"] []
        [behCommitFails m, behCommitFails m, behCommitFails m]
        (NetworkDeviceXR.new ip host)
      = Outcome.done { NetworkDeviceXR.new ip host with
          conf_logs := ["OUT"], connection_status := false,
          connection_error_msg := m } ∧
    connect_dev settingsConf ["set interface"] []
        [behCommitFails m, behCommitFails m, behCommitFails m]
        (NetworkDeviceMX.new ip host)
      = Outcome.done { NetworkDeviceMX.new ip host with
          conf_logs := ["OUT"], connection_status := false,
          connection_error_msg := m } :=
  ⟨rfl, rfl, rfl, rfl⟩

/-- Claim C6: `connection_error_msg` is non-empty iff
`connection_status = false` — at construction, after any `reset`, and at
every terminal (`done`) state of a lifecycle that starts from a fresh
state, provided every exception the session raises carries non-empty
text.  (On the SSH-exhaustion crash path no terminal state is reached;
see the C2/C3 theorems.) -/
theorem errmsg_iff_failed_invariant (ip host : String) (os : OsType)
    (dAny : NetworkDevice) (S : Settings) (ci qi : List String)
    (behs : List SessionBehavior) (d d' : NetworkDevice)
    (hb : ∀ b ∈ behs, behErrorsNonempty b)
    (hst : d.connection_status = true)
    (hmsg : d.connection_error_msg = "")
    (hdone : connect_dev S ci qi behs d = Outcome.done d') :
    ((mkNetworkDevice ip host os).connection_error_msg ≠ "" ↔
      (mkNetworkDevice ip host os).connection_status = false) ∧
    (dAny.reset.connection_error_msg ≠ "" ↔
      dAny.reset.connection_status = false) ∧
    (d'.connection_error_msg ≠ "" ↔ d'.connection_status = false) := by
  refine ⟨by simp [mkNetworkDevice], by simp [NetworkDevice.reset], ?_⟩
  exact connect_dev_go_done_inv S ci qi behs 0 d d' hb hst hmsg hdone

/-- Witness for C6 at a concrete healthy run. -/
theorem errmsg_iff_failed_invariant_witness :
    ((mkNetworkDevice "198.51.100.1" "w1" OsType.cisco_ios).connection_error_msg
        ≠ "" ↔
      (mkNetworkDevice "198.51.100.1" "w1"
        OsType.cisco_ios).connection_status = false) ∧
    ((NetworkDeviceXR.new "198.51.100.2" "w2").reset.connection_error_msg
        ≠ "" ↔
      (NetworkDeviceXR.new "198.51.100.2" "w2").reset.connection_status
        = false) ∧
    (devA.connection_error_msg ≠ "" ↔ devA.connection_status = false) :=
  errmsg_iff_failed_invariant "198.51.100.1" "w1" OsType.cisco_ios
    (NetworkDeviceXR.new "198.51.100.2" "w2") settingsQuery [] [] [behAllOk]
    devA devA
    (by
      intro b hbm
      simp only [List.mem_singleton] at hbm
      subst hbm
      exact ⟨trivial, fun _ => trivial, fun _ => trivial, trivial, trivial,
        trivial, trivial⟩)
    rfl rfl rfl

lemma write_logs_go_eq (conf : Bool) (devices : List NetworkDevice) :
    write_logs_go conf devices
      = (devices.countP (fun d => !d.connection_status),
         (devices.filter (fun d => d.connection_status)).map
           (success_block conf),
         (devices.filter (fun d => !d.connection_status)).map
           failure_block) := by
  induction devices with
  | nil => simp [write_logs_go]
  | cons d rest ih =>
    by_cases hs : d.connection_status
    · simp [write_logs_go, ih, hs, List.countP_cons, List.filter_cons]
    · simp [write_logs_go, ih, hs, List.countP_cons, List.filter_cons]

/-- Claim C7: over any finalized device list with pairwise-distinct
hostnames, `write_logs` returns a failure count equal to the number of
devices with `connection_status = false`, the total count is the device
list's length, the success bundle is exactly the connected devices'
blocks in order (each hostname appearing exactly once), and the failure
bundle is exactly the failed devices' blocks tagged with their
`connection_error_msg`. -/
theorem write_logs_partition (conf : Bool) (devices : List NetworkDevice)
    (hnodup : (devices.map (fun d => d.hostname)).Nodup) :
    (write_logs conf devices).unavailable_devices_count
      = devices.countP (fun d => !d.connection_status) ∧
    total_devices devices = devices.length ∧
    (write_logs conf devices).success_bundle
      = (devices.filter (fun d => d.connection_status)).map
          (success_block conf) ∧
    (write_logs conf devices).failure_bundle
      = (devices.filter (fun d => !d.connection_status)).map failure_block ∧
    ((write_logs conf devices).success_bundle.map
      (fun bl => bl.hostname)).Nodup ∧
    ∀ hn ∈ (write_logs conf devices).success_bundle.map
        (fun bl => bl.hostname),
      ((write_logs conf devices).success_bundle.map
        (fun bl => bl.hostname)).count hn = 1 := by
  have hgo := write_logs_go_eq conf devices
  have hsucc : (write_logs conf devices).success_bundle
      = (devices.filter (fun d => d.connection_status)).map
          (success_block conf) := by
    simp [write_logs, hgo]
  have hhost : (write_logs conf devices).success_bundle.map
        (fun bl => bl.hostname)
      = (devices.filter (fun d => d.connection_status)).map
          (fun d => d.hostname) := by
    rw [hsucc, List.map_map]
    rfl
  have hnd : ((write_logs conf devices).success_bundle.map
      (fun bl => bl.hostname)).Nodup := by
    rw [hhost]
    exact hnodup.sublist
      (List.Sublist.map _ (List.filter_sublist devices))
  refine ⟨by simp [write_logs, hgo], rfl, hsucc, by simp [write_logs, hgo],
    hnd, ?_⟩
  intro hn hmem
  exact List.count_eq_one_of_mem hnd hmem

/-- A failed copy of `devB`, as the aggregator would see it. -/
def devBFailed : NetworkDevice :=
  { devB with
    connection_status := false
    connection_error_msg := "unreachable" }

/-- Witness for C7 at a concrete two-device list. -/
theorem write_logs_partition_witness :
    (write_logs false [devA, devBFailed]).unavailable_devices_count
      = [devA, devBFailed].countP (fun d => !d.connection_status) ∧
    total_devices [devA, devBFailed] = [devA, devBFailed].length ∧
    (write_logs false [devA, devBFailed]).success_bundle
      = ([devA, devBFailed].filter (fun d => d.connection_status)).map
          (success_block false) ∧
    (write_logs false [devA, devBFailed]).failure_bundle
      = ([devA, devBFailed].filter (fun d => !d.connection_status)).map
          failure_block ∧
    ((write_logs false [devA, devBFailed]).success_bundle.map
      (fun bl => bl.hostname)).Nodup ∧
    ∀ hn ∈ (write_logs false [devA, devBFailed]).success_bundle.map
        (fun bl => bl.hostname),
      ((write_logs false [devA, devBFailed]).success_bundle.map
        (fun bl => bl.hostname)).count hn = 1 :=
  write_logs_partition false [devA, devBFailed] (by decide)

/-- Claim C8: when every device finished with `connection_status = true`
(failure count 0), the connection-error file — always created at the top
of `write_logs` — is removed at the end, so no empty failure report
remains. -/
theorem conn_error_file_removed_when_all_ok (conf : Bool)
    (devices : List NetworkDevice)
    (h : (write_logs conf devices).unavailable_devices_count = 0) :
    (write_logs conf devices).conn_error_file_created = true ∧
    (write_logs conf devices).conn_error_file_removed = true := by
  refine ⟨rfl, ?_⟩
  have hc : devices.countP (fun d => !d.connection_status) = 0 := by
    have hgo := write_logs_go_eq conf devices
    simpa [write_logs, hgo] using h
  simp only [write_logs]
  rw [List.all_eq_true]
  intro d hd
  have hnd := List.countP_eq_zero.mp hc d hd
  simpa using hnd

/-- Witness for C8 at a concrete all-connected list. -/
theorem conn_error_file_removed_when_all_ok_witness :
    (write_logs true [devA, devB]).conn_error_file_created = true ∧
    (write_logs true [devA, devB]).conn_error_file_removed = true :=
  conn_error_file_removed_when_all_ok true [devA, devB] (by decide)

/-- Claim C9, counterexample: the argument `mt0` is accepted — the
parser only checks `int(match.group(1)) <= 100`, with no lower bound —
so `get_arguments` produces `maxth = 0`, outside the claimed range
1..100 and not the default 20. -/
theorem get_arguments_mt0_below_range :
    (get_arguments ["mt0"]).maxth = 0 ∧
    ¬(1 ≤ (get_arguments ["mt0"]).maxth) := by
  constructor
  · rfl
  · decide

/-- Claim C9, amended: for every argument list the parsed `maxth` is at
most 100 (an `mtN` argument is accepted exactly when `N ≤ 100`, with no
lower bound, so 0 is accepted); an out-of-range `mtN` keeps the previous
value, hence the default 20, while an in-range one is adopted. -/
theorem get_arguments_maxth_bounded (args : List String) :
    (get_arguments args).maxth ≤ 100 ∧
    (get_arguments ["mt150"]).maxth = 20 ∧
    (get_arguments ["mt50"]).maxth = 50 := by
  refine ⟨?_, by rfl, by rfl⟩
  have hstep : ∀ (s : Settings) (a : String), s.maxth ≤ 100 →
      (get_arguments_step s a).maxth ≤ 100 := by
    intro s a hs
    unfold get_arguments_step
    split
    · cases hm : findMtMatch a.toList with
      | none => simpa using hs
      | some ds =>
        by_cases hle : digitsToNat ds ≤ 100
        · simp [hle]
        · simpa [hle] using hs
    · split
      · simpa using hs
      · split
        · simpa using hs
        · simpa using hs
  have hfold : ∀ (l : List String) (s : Settings), s.maxth ≤ 100 →
      (l.foldl get_arguments_step s).maxth ≤ 100 := by
    intro l
    induction l with
    | nil => intro s hs; simpa using hs
    | cons a rest ih => intro s hs; exact ih _ (hstep s a hs)
  exact hfold args _ (by decide)

/-- Claim C10: when `cmd` raises no error, it mutates only the active
mode's transcript list — query mode appends to `cmd_logs` and leaves
`conf_logs`, `connection_status` and `connection_error_msg` unchanged;
configure mode appends to `conf_logs` and leaves `cmd_logs`,
`connection_status` and `connection_error_msg` unchanged — and the
identity fields (`hostname`, `ip_address`, `os_type`) are never
mutated. -/
theorem cmd_mutates_only_active_transcript (S : Settings)
    (ci qi : List String) (b : SessionBehavior) (d d' : NetworkDevice)
    (h : cmd S ci qi b d = .ok d') :
    d'.hostname = d.hostname ∧ d'.ip_address = d.ip_address ∧
    d'.os_type = d.os_type ∧
    d'.connection_status = d.connection_status ∧
    d'.connection_error_msg = d.connection_error_msg ∧
    (S.conf = true → d'.cmd_logs = d.cmd_logs ∧
      ∃ t, d'.conf_logs = d.conf_logs ++ t) ∧
    (S.conf = false → d'.conf_logs = d.conf_logs ∧
      ∃ t, d'.cmd_logs = d.cmd_logs ++ t) :=
  cmd_ok_frame S ci qi b d d' h

/-- Witness for C10 at a concrete query-mode run. -/
theorem cmd_mutates_only_active_transcript_witness :
    ({ devB with cmd_logs := ["OUT"] } : NetworkDevice).hostname
        = devB.hostname ∧
    ({ devB with cmd_logs := ["OUT"] } : NetworkDevice).ip_address
        = devB.ip_address ∧
    ({ devB with cmd_logs := ["OUT"] } : NetworkDevice).os_type
        = devB.os_type ∧
    ({ devB with cmd_logs := ["OUT"] } : NetworkDevice).connection_status
        = devB.connection_status ∧
    ({ devB with cmd_logs := ["OUT"] } :
        NetworkDevice).connection_error_msg = devB.connection_error_msg ∧
    (settingsQuery.conf = true →
      ({ devB with cmd_logs := ["OUT"] } : NetworkDevice).cmd_logs
          = devB.cmd_logs ∧
      ∃ t, ({ devB with cmd_logs := ["OUT"] } : NetworkDevice).conf_logs
          = devB.conf_logs ++ t) ∧
    (settingsQuery.conf = false →
      ({ devB with cmd_logs := ["OUT"] } : NetworkDevice).conf_logs
          = devB.conf_logs ∧
      ∃ t, ({ devB with cmd_logs := ["OUT"] } : NetworkDevice).cmd_logs
          = devB.cmd_logs ++ t) :=
  cmd_mutates_only_active_transcript settingsQuery [] ["show version"]
    behAllOk devB { devB with cmd_logs := ["OUT"] } rfl
